import Mathlib

/-!
Verification development for `task_4.py`, a single-pass accident-data
analysis script: clean → count → cross-tabulate → chi-square test → export.

Shallow embedding conventions:
* A table row is a record of the eight analysis columns, each an
  `Option String` (`none` = null/NaN), plus a list of any further columns.
* A pandas DataFrame restricted to these columns is a `List Row`.
* Counts are `ℕ`; the chi-square arithmetic is over `ℚ` (exact rationals in
  place of IEEE doubles; every identity proved is exact, so it holds a
  fortiori "within floating tolerance").
* `scipy.stats.chi2_contingency` failure modes (`ValueError` on a size-0
  table, `ValueError` on a zero expected frequency) are `Except.error`.
  The p-value is produced by an arbitrary survival function `sf`, passed
  as a parameter: the claims under study do not constrain its value, only
  that it is a deterministic function of (statistic, dof).
* Chart rendering has no numerical effect, but pandas validates plot data
  first: `DataFrame.plot` raises `TypeError: no numeric data to plot` when
  the frame has no numeric columns. The run's control flow is charts
  (lines 49-126), then the chi-square loop (lines 135-136), then the two
  `to_csv` calls (lines 143-144); the one data-dependent failure among the
  chart steps (the line-104 `DataFrame.plot` check) is embedded as
  `df_plot`, the rest of rendering is a no-op here.
-/

namespace Task4

/-- One record of the dataset, restricted to the eight key columns used by
the script (`cols_of_interest`); `extra` holds any remaining columns of the
input file. `none` models a null/NaN cell. -/
structure Row where
  road_surface_type : Option String
  weather_conditions : Option String
  light_conditions : Option String
  types_of_junction : Option String
  lanes_or_medians : Option String
  cause_of_accident : Option String
  accident_severity : Option String
  type_of_collision : Option String
  extra : List (Option String) := []
deriving Repr, DecidableEq

/-- The eight column accessors, in the order of `cols_of_interest`. -/
def cols_of_interest : List (Row → Option String) :=
  [Row.road_surface_type, Row.weather_conditions, Row.light_conditions,
   Row.types_of_junction, Row.lanes_or_medians, Row.cause_of_accident,
   Row.accident_severity, Row.type_of_collision]

/-- `df[c].isnull().sum()`: nulls in column `c` before filtering. -/
def missing_before (df : List Row) (c : Row → Option String) : ℕ :=
  (df.map c).countP Option.isNone

/-- A row survives `df.dropna(subset=cols_of_interest)` iff every one of the
eight key columns is non-null. -/
def rowComplete (r : Row) : Bool :=
  r.road_surface_type.isSome && r.weather_conditions.isSome &&
  r.light_conditions.isSome && r.types_of_junction.isSome &&
  r.lanes_or_medians.isSome && r.cause_of_accident.isSome &&
  r.accident_severity.isSome && r.type_of_collision.isSome

/-- `df_clean = df.dropna(subset=cols_of_interest).copy()`. -/
def df_clean (df : List Row) : List Row :=
  df.filter rowComplete

/-- The non-null values of column `c` (pandas drops NaN when counting). -/
def colValues (df : List Row) (c : Row → Option String) : List String :=
  df.filterMap c

/-- `Series.value_counts()`: one `(value, count)` pair per distinct value,
ordered by descending count (pandas default `sort=True, ascending=False`). -/
def value_counts (xs : List String) : List (String × ℕ) :=
  (xs.dedup.map fun v => (v, xs.count v)).insertionSort fun a b => b.2 ≤ a.2

def counts_weather (dfc : List Row) : List (String × ℕ) :=
  value_counts (colValues dfc Row.weather_conditions)

def counts_road (dfc : List Row) : List (String × ℕ) :=
  value_counts (colValues dfc Row.road_surface_type)

def counts_light (dfc : List Row) : List (String × ℕ) :=
  value_counts (colValues dfc Row.light_conditions)

def counts_junction (dfc : List Row) : List (String × ℕ) :=
  value_counts (colValues dfc Row.types_of_junction)

def counts_lanes (dfc : List Row) : List (String × ℕ) :=
  value_counts (colValues dfc Row.lanes_or_medians)

/-- `value_counts().head(15)`: only the 15 most frequent causes. -/
def counts_cause (dfc : List Row) : List (String × ℕ) :=
  (value_counts (colValues dfc Row.cause_of_accident)).take 15

/-- Lexicographic (code-point) order on strings, as Python compares `str`;
computed on the underlying character lists. `strLe_iff` below shows it is
exactly Lean's `≤` on `String`. -/
def strLe (a b : String) : Bool :=
  !decide (b.data < a.data)

/-- Ascending sort (lexicographic on strings, Python `sorted`). -/
def sortedStrings (xs : List String) : List String :=
  xs.insertionSort fun a b => strLe a b = true

/-- `sorted(df_clean['Accident_severity'].unique())`: the category list of
the `pd.Categorical` conversion (line 32-34 of the script). -/
def severityCategories (dfc : List Row) : List String :=
  sortedStrings (colValues dfc Row.accident_severity).dedup

/-- Distinct values of the grouping column, ascending (`pd.crosstab` sorts
its index, `sort=True` default of the underlying groupby). -/
def rowCategories (dfc : List Row) (c : Row → Option String) : List String :=
  sortedStrings (colValues dfc c).dedup

/-- `pd.crosstab(df_clean[c], df_clean['Accident_severity'])` as a grid of
counts: rows indexed by the ascending distinct values of `c`, columns by
`severityCategories` (the order of the categorical dtype). -/
def crosstab (dfc : List Row) (c : Row → Option String) : List (List ℕ) :=
  (rowCategories dfc c).map fun rv =>
    (severityCategories dfc).map fun cv =>
      (dfc.filter fun row => c row == some rv && row.accident_severity == some cv).length

/-- `pivot_w_s = pd.crosstab(df_clean['Weather_conditions'], df_clean['Accident_severity'])`. -/
def pivot_w_s (dfc : List Row) : List (List ℕ) :=
  crosstab dfc Row.weather_conditions

/-- One row of `pivot_w_s.div(pivot_w_s.sum(axis=1), axis=0).fillna(0)`:
each cell divided by the row sum; a zero row sum gives 0/0 = NaN in pandas,
turned into 0 by `fillna(0)`. -/
def normalizeRow (r : List ℕ) : List ℚ :=
  r.map fun o : ℕ => if (r.sum : ℚ) = 0 then 0 else (o : ℚ) / (r.sum : ℚ)

/-- `pivot_w_s_norm` (line 101 of the script). -/
def pivot_w_s_norm (dfc : List Row) : List (List ℚ) :=
  (pivot_w_s dfc).map normalizeRow

/-! ### scipy.stats.chi2_contingency, embedded over ℚ -/

/-- Grand total of a contingency table. -/
def grandTotal (t : List (List ℕ)) : ℕ :=
  (t.map List.sum).sum

/-- Number of columns: length of the first row (0 for the empty table);
`pd.crosstab` always returns a rectangular grid. -/
def ncols (t : List (List ℕ)) : ℕ :=
  (t.head?.map List.length).getD 0

/-- Column-wise totals (numpy `observed.sum(axis=0)`). -/
def colTotals (t : List (List ℕ)) : List ℕ :=
  t.foldr (List.zipWith (· + ·)) (List.replicate (ncols t) 0)

/-- `scipy.stats.contingency.expected_freq`:
`expected = outer(rowsums, colsums) / total`. -/
def expectedTable (t : List (List ℕ)) : List (List ℚ) :=
  t.map fun r : List ℕ => (colTotals t).map fun ct : ℕ =>
    ((r.sum : ℚ) * (ct : ℚ)) / (grandTotal t : ℚ)

/-- `np.sign` on ℚ. -/
def qsign (x : ℚ) : ℚ :=
  if 0 < x then 1 else if x < 0 then -1 else 0

/-- Yates continuity correction as scipy applies it when `dof == 1` and
`correction=True` (the default): move each observed count toward its
expected value by `min(0.5, |expected − observed|)`. -/
def yatesAdjust (e o : ℚ) : ℚ :=
  o + min (1 / 2) |e - o| * qsign (e - o)

/-- One cell's contribution `(observed − expected)² / expected`, after the
continuity correction when it is in force. -/
def cellStat (correction : Bool) (o : ℕ) (e : ℚ) : ℚ :=
  ((if correction then yatesAdjust e (o : ℚ) else (o : ℚ)) - e) ^ 2 / e

/-- The chi-square statistic: sum of `cellStat` over all cells, pairing the
observed grid with the expected grid. -/
def chi2stat (correction : Bool) (t : List (List ℕ)) : ℚ :=
  ((t.zip (expectedTable t)).map fun p =>
    ((p.1.zip p.2).map fun q => cellStat correction q.1 q.2).sum).sum

/-- The tuple scipy returns, as recorded in the script's `tests` dict
(line 133): statistic, p-value, degrees of freedom, table shape. -/
structure Chi2Result where
  chi2 : ℚ
  p_value : ℚ
  dof : ℤ
  table_shape : ℕ × ℕ
deriving Repr, DecidableEq

/-- scipy's degrees of freedom:
`dof = expected.size - sum(expected.shape) + expected.ndim - 1`. -/
def dofOf (t : List (List ℕ)) : ℤ :=
  (t.length : ℤ) * (ncols t : ℤ) - (t.length : ℤ) - (ncols t : ℤ) + 1

/-- `scipy.stats.chi2_contingency(table)` with its default
`correction=True`. `sf` is the upper-tail chi-square survival function
used for the p-value, taken as a parameter (a fixed deterministic
numerical routine whose values the claims do not constrain). scipy raises
`ValueError` on a size-0 table and on a zero expected frequency; both are
`Except.error` here. (The grand-total-0 table, where scipy's `expected`
is NaN throughout and the statistic comes out NaN, is also an error here:
ℚ has no NaN, and 0/0 = 0 trips the zero-expected branch.) -/
def chi2_contingency (sf : ℚ → ℤ → ℚ) (t : List (List ℕ)) : Except String Chi2Result :=
  if t.length * ncols t = 0 then
    .error "No data; observed has size 0."
  else if (expectedTable t).any fun er => er.any fun e => decide (e = 0) then
    .error "The internally computed table of expected frequencies has a zero element."
  else
    .ok { chi2 := chi2stat (decide (dofOf t = 1)) t,
          p_value := sf (chi2stat (decide (dofOf t = 1)) t) (dofOf t),
          dof := dofOf t,
          table_shape := (t.length, ncols t) }

/-- `run_chi2(var)` (lines 130-133): build the contingency table of `var`
against `Accident_severity` and hand it to `chi2_contingency`. There is no
try/except around the call: any error propagates. -/
def run_chi2 (sf : ℚ → ℤ → ℚ) (dfc : List Row) (c : Row → Option String) :
    Except String Chi2Result :=
  chi2_contingency sf (crosstab dfc c)

/-- The four predictors tested (line 135). -/
def chi2Vars : List (Row → Option String) :=
  [Row.weather_conditions, Row.road_surface_type, Row.light_conditions,
   Row.types_of_junction]

def chi2VarNames : List String :=
  ["Weather_conditions", "Road_surface_type", "Light_conditions",
   "Types_of_Junction"]

/-- The `for var in [...]` loop filling `tests`: the first error aborts the
run (nothing catches it). -/
def runTests (sf : ℚ → ℤ → ℚ) (dfc : List Row) : Except String (List Chi2Result) :=
  chi2Vars.mapM (run_chi2 sf dfc)

/-! ### CSV export (lines 139-144) -/

def csvCell (c : Option String) : String :=
  c.getD ""

def rowCsv (r : Row) : String :=
  String.intercalate "," ((cols_of_interest.map fun c => csvCell (c r)) ++
    r.extra.map csvCell)

def cleanedHeader : String :=
  "Road_surface_type,Weather_conditions,Light_conditions,Types_of_Junction,Lanes_or_Medians,Cause_of_accident,Accident_severity,Type_of_collision"

/-- `df_clean.to_csv(..., index=False)`: header line then one line per row. -/
def cleanedCsv (dfc : List Row) : String :=
  String.intercalate "\n" (cleanedHeader :: dfc.map rowCsv) ++ "\n"

def shapeCsv (s : ℕ × ℕ) : String :=
  "(" ++ toString s.1 ++ ", " ++ toString s.2 ++ ")"

def testRowCsv (v : String) (r : Chi2Result) : String :=
  String.intercalate ","
    [v, toString r.chi2, toString r.p_value, toString r.dof, shapeCsv r.table_shape]

/-- `tests_df.to_csv(..., index=False)`. -/
def testsCsv (rs : List Chi2Result) : String :=
  String.intercalate "\n"
    ("variable,chi2,p_value,dof,table_shape" ::
      (chi2VarNames.zip rs).map fun p => testRowCsv p.1 p.2) ++ "\n"

/-- pandas `DataFrame.plot`: before rendering, the frame's numeric columns
are selected and `TypeError: no numeric data to plot` is raised if none
remain. Rendering itself has no numerical effect, so the column list is
all the step depends on. -/
def df_plot (cols : List String) : Except String Unit :=
  if cols.isEmpty then .error "no numeric data to plot" else .ok ()

/-- Line 104: `pivot_w_s_norm.plot(kind='bar', stacked=True)`. The columns
of `pivot_w_s_norm` are the severity categories (all numeric after
normalization), so this plot raises exactly when that list is empty. The
Series bar charts of lines 51-90 plot integer-dtype `value_counts` series,
which pandas renders (as empty charts) without raising even on zero rows,
so line 104 is the first data-dependent failure point of the plotting
section; the weather-vs-road heatmap (line 117) comes after it. -/
def plot_severity_stacked (dfc : List Row) : Except String Unit :=
  df_plot (severityCategories dfc)

/-- The whole run viewed from input table to the two exported CSV byte
strings (cleaned data, chi-square summary), in source order: cleaning, the
charts — of which `plot_severity_stacked` (line 104) carries the one
data-dependent failure — then the chi-square loop (lines 135-136), then
the two `to_csv` calls (lines 143-144). An error anywhere aborts the run,
so neither file is written. -/
def pipeline (sf : ℚ → ℤ → ℚ) (df : List Row) : Except String (String × String) := do
  let dfc := df_clean df
  let _ ← plot_severity_stacked dfc
  let rs ← runTests sf dfc
  return (cleanedCsv dfc, testsCsv rs)

/-! ### Spec-side definition for the refinement claim about the statistic -/

/-- Written from the spec (§4.4), not the code: `row_total[i]`. -/
def specRowTotal (t : List (List ℕ)) (i : ℕ) : ℕ :=
  (t.getD i []).sum

/-- Written from the spec (§4.4), not the code: `col_total[j]`. -/
def specColTotal (t : List (List ℕ)) (j : ℕ) : ℕ :=
  (t.map fun r => r.getD j 0).sum

/-- Written from the spec (§4.4), not the code:
`expected[i][j] = (row_total[i] × col_total[j]) / grand_total`. -/
def specExpected (t : List (List ℕ)) (i j : ℕ) : ℚ :=
  ((specRowTotal t i : ℚ) * (specColTotal t j : ℚ)) / (grandTotal t : ℚ)

/-- Written from the spec (§4.4), not the code: the plain Pearson statistic
`Σ (observed − expected)² / expected` over all cells, no correction. -/
def pearsonStat (t : List (List ℕ)) : ℚ :=
  ∑ i ∈ Finset.range t.length, ∑ j ∈ Finset.range (ncols t),
    (((t.getD i []).getD j 0 : ℚ) - specExpected t i j) ^ 2 / specExpected t i j

/-! ### Sample inputs used by witnesses and counterexamples -/

/-- A fully populated row; the three columns the examples vary are
arguments. -/
def mkRow (w sev cause : String) : Row where
  road_surface_type := some "Asphalt"
  weather_conditions := some w
  light_conditions := some "Daylight"
  types_of_junction := some "Y"
  lanes_or_medians := some "Two-way"
  cause_of_accident := some cause
  accident_severity := some sev
  type_of_collision := some "Rear"
  extra := []

/-- A row that is null in one required column (road surface). -/
def badRow : Row where
  road_surface_type := none
  weather_conditions := some "Rain"
  light_conditions := some "Daylight"
  types_of_junction := some "Y"
  lanes_or_medians := some "Two-way"
  cause_of_accident := some "c1"
  accident_severity := some "Fatal"
  type_of_collision := some "Rear"
  extra := []

/-- Four complete rows giving the 2×2 weather × severity table
`[[1,1],[1,1]]`. -/
def exDfA : List Row :=
  [mkRow "Rain" "Fatal" "c1", mkRow "Rain" "Slight" "c1",
   mkRow "Clear" "Fatal" "c1", mkRow "Clear" "Slight" "c1"]

/-- Sixteen complete rows with sixteen distinct causes. -/
def exDf16 : List Row :=
  (List.range 16).map fun i => mkRow "Rain" "Fatal" ("c" ++ toString i)

/-! ### Helper lemmas -/

lemma strLe_iff (a b : String) : strLe a b = true ↔ a ≤ b := by
  simp [strLe, String.le_iff_toList_le]

instance : IsTrans String fun a b => strLe a b = true :=
  ⟨fun a b c hab hbc =>
    (strLe_iff a c).2 (le_trans ((strLe_iff a b).1 hab) ((strLe_iff b c).1 hbc))⟩

instance : IsTotal String fun a b => strLe a b = true := by
  refine ⟨fun a b => ?_⟩
  rcases le_total a b with h | h
  · exact Or.inl ((strLe_iff a b).2 h)
  · exact Or.inr ((strLe_iff b a).2 h)

lemma rowComplete_iff (r : Row) :
    rowComplete r = true ↔ ∀ c ∈ cols_of_interest, (c r).isSome = true := by
  simp only [rowComplete, cols_of_interest, Bool.and_eq_true, List.forall_mem_cons,
    List.forall_mem_nil]
  tauto

lemma mem_df_clean (df : List Row) (r : Row) :
    r ∈ df_clean df ↔ r ∈ df ∧ rowComplete r = true := by
  simp [df_clean, List.mem_filter]

lemma df_clean_isSome {df : List Row} {r : Row} (hr : r ∈ df_clean df)
    {c : Row → Option String} (hc : c ∈ cols_of_interest) : (c r).isSome = true :=
  (rowComplete_iff r).1 ((mem_df_clean df r).1 hr).2 c hc

lemma length_filterMap_isSome {α β : Type} (f : α → Option β) :
    ∀ (l : List α), (∀ x ∈ l, (f x).isSome = true) → (l.filterMap f).length = l.length := by
  intro l
  induction l with
  | nil => intro _; rfl
  | cons a l ih =>
    intro h
    obtain ⟨b, hb⟩ := Option.isSome_iff_exists.mp (h a (by simp))
    simp [List.filterMap_cons, hb, ih fun x hx => h x (by simp [hx])]

/-- The counts in a `value_counts` table total the length of the counted
column. -/
lemma value_counts_sum (xs : List String) :
    ((value_counts xs).map Prod.snd).sum = xs.length := by
  unfold value_counts
  rw [((List.perm_insertionSort _ _).map Prod.snd).sum_eq, List.map_map]
  simpa using List.sum_map_count_dedup_eq_length xs

lemma colValues_clean_length (df : List Row) {c : Row → Option String}
    (hc : c ∈ cols_of_interest) :
    (colValues (df_clean df) c).length = (df_clean df).length :=
  length_filterMap_isSome c _ fun _ hr => df_clean_isSome hr hc

lemma full_counts_sum (df : List Row) {c : Row → Option String}
    (hc : c ∈ cols_of_interest) :
    ((value_counts (colValues (df_clean df) c)).map Prod.snd).sum = (df_clean df).length := by
  rw [value_counts_sum]
  exact colValues_clean_length df hc

lemma sum_take_le (l : List ℕ) (n : ℕ) : (l.take n).sum ≤ l.sum := by
  conv_rhs => rw [← List.take_append_drop n l]
  rw [List.sum_append]
  exact Nat.le_add_right _ _

/-- Rectangularity: every row has the table's column count. `pd.crosstab`
always produces such a grid. -/
def IsRect (t : List (List ℕ)) : Prop :=
  ∀ r ∈ t, r.length = ncols t

instance (t : List (List ℕ)) : Decidable (IsRect t) :=
  List.decidableBAll _ t

lemma sum_map_eq_range {α M : Type} [AddCommMonoid M] (f : α → M) (d : α) :
    ∀ l : List α, (l.map f).sum = ∑ i ∈ Finset.range l.length, f (l.getD i d)
  | [] => by simp
  | a :: l => by
    rw [List.map_cons, List.sum_cons, sum_map_eq_range f d l, List.length_cons,
      Finset.sum_range_succ']
    simp [add_comm]

lemma sum_zip_eq_range {α β M : Type} [AddCommMonoid M] (f : α → β → M) (da : α) (db : β) :
    ∀ (a : List α) (b : List β), a.length = b.length →
      ((a.zip b).map fun p => f p.1 p.2).sum =
        ∑ j ∈ Finset.range a.length, f (a.getD j da) (b.getD j db)
  | [], _, _ => by simp
  | x :: a, [], h => by simp at h
  | x :: a, y :: b, h => by
    rw [List.zip_cons_cons, List.map_cons, List.sum_cons,
      sum_zip_eq_range f da db a b (by simpa using h), List.length_cons,
      Finset.sum_range_succ']
    simp [add_comm]

lemma foldr_zipWith_length (c : ℕ) :
    ∀ rows : List (List ℕ), (∀ r ∈ rows, r.length = c) →
      (rows.foldr (List.zipWith (· + ·)) (List.replicate c 0)).length = c
  | [], _ => by simp
  | r :: rows, h => by
    rw [List.foldr_cons, List.length_zipWith,
      foldr_zipWith_length c rows fun x hx => h x (List.mem_cons_of_mem _ hx),
      h r (List.mem_cons_self _ _), min_self]

lemma foldr_zipWith_getD (c : ℕ) {j : ℕ} (hj : j < c) :
    ∀ rows : List (List ℕ), (∀ r ∈ rows, r.length = c) →
      (rows.foldr (List.zipWith (· + ·)) (List.replicate c 0)).getD j 0 =
        (rows.map fun r => r.getD j 0).sum
  | [], _ => by
    simp [List.getD_eq_getElem?_getD, List.getElem?_replicate, hj]
  | r :: rows, h => by
    have hr : r.length = c := h r (List.mem_cons_self _ _)
    have htail : ∀ x ∈ rows, x.length = c := fun x hx => h x (List.mem_cons_of_mem _ hx)
    have hlen : (rows.foldr (List.zipWith (· + ·)) (List.replicate c 0)).length = c :=
      foldr_zipWith_length c rows htail
    rw [List.foldr_cons,
      List.getD_eq_getElem _ _ (by rw [List.length_zipWith, hr, hlen, min_self]; exact hj),
      List.getElem_zipWith, List.map_cons, List.sum_cons,
      ← foldr_zipWith_getD c hj rows htail,
      List.getD_eq_getElem _ _ (by rw [hr]; exact hj),
      List.getD_eq_getElem _ _ (by rw [hlen]; exact hj)]

lemma colTotals_length {t : List (List ℕ)} (h : IsRect t) :
    (colTotals t).length = ncols t :=
  foldr_zipWith_length (ncols t) t h

lemma colTotals_getD {t : List (List ℕ)} (h : IsRect t) {j : ℕ} (hj : j < ncols t) :
    (colTotals t).getD j 0 = (t.map fun r => r.getD j 0).sum :=
  foldr_zipWith_getD (ncols t) hj t h

lemma getD_map_of_lt {α β : Type} (f : α → β) (l : List α) {i : ℕ} (hi : i < l.length)
    (da : α) (db : β) : (l.map f).getD i db = f (l.getD i da) := by
  rw [List.getD_eq_getElem _ _ (by simpa using hi), List.getElem_map,
    List.getD_eq_getElem _ _ hi]

/-- With the continuity correction off, the code's cell-by-cell statistic
is the index-based Pearson formula written from the spec. -/
lemma chi2stat_false_eq_pearson {t : List (List ℕ)} (h : IsRect t) :
    chi2stat false t = pearsonStat t := by
  unfold chi2stat pearsonStat expectedTable
  rw [sum_zip_eq_range (fun r er => ((r.zip er).map fun q => cellStat false q.1 q.2).sum)
    [] [] t _ (by rw [List.length_map])]
  refine Finset.sum_congr rfl fun i hi => ?_
  have hi' : i < t.length := Finset.mem_range.1 hi
  rw [getD_map_of_lt _ t hi' [] []]
  have hrmem : t.getD i [] ∈ t := by
    rw [List.getD_eq_getElem _ _ hi']
    exact List.getElem_mem _
  have hrl : (t.getD i []).length = ncols t := h _ hrmem
  rw [sum_zip_eq_range (fun o e => cellStat false o e) 0 0 (t.getD i []) _
    (by rw [List.length_map, colTotals_length h, hrl])]
  rw [hrl]
  refine Finset.sum_congr rfl fun j hj => ?_
  have hj' : j < ncols t := Finset.mem_range.1 hj
  rw [getD_map_of_lt _ (colTotals t) (by rw [colTotals_length h]; exact hj') 0 0,
    colTotals_getD h hj']
  simp [cellStat, specExpected, specRowTotal, specColTotal]

/-! ### Claim theorems -/

/-- C1: after the cleaning step (`df.dropna(subset=cols_of_interest)`,
line 27), no remaining row is null in any of the eight required columns,
and every input row non-null in all eight is retained. -/
theorem claim1_clean_complete (df : List Row) :
    (∀ r ∈ df_clean df, ∀ c ∈ cols_of_interest, (c r).isSome = true) ∧
    (∀ r ∈ df, (∀ c ∈ cols_of_interest, (c r).isSome = true) → r ∈ df_clean df) := by
  refine ⟨fun r hr c hc => df_clean_isSome hr hc, fun r hr h => ?_⟩
  exact (mem_df_clean df r).2 ⟨hr, (rowComplete_iff r).2 h⟩

/-- C1 witness: cleaning a concrete two-row table retains its concrete
fully-populated row. -/
theorem claim1_witness :
    mkRow "Rain" "Fatal" "c1" ∈ df_clean [badRow, mkRow "Rain" "Fatal" "c1"] :=
  (claim1_clean_complete [badRow, mkRow "Rain" "Fatal" "c1"]).2 _ (by decide) (by decide)

/-- C3 counterexample: with sixteen distinct causes, the causes frequency
table (`value_counts().head(15)`, line 42) sums to 15 while the cleaned
table has 16 rows, so the claim fails as stated. -/
theorem claim3_counterexample :
    ((counts_cause (df_clean exDf16)).map Prod.snd).sum ≠ (df_clean exDf16).length := by
  decide

/-- C3 (amended): each full frequency table (weather, road surface, light,
junction, lanes) sums to the number of cleaned rows; the causes table is
truncated to the 15 most frequent values, so its sum is at most the number
of cleaned rows, with equality whenever at most 15 distinct causes occur. -/
theorem claim3_frequency_sums (df : List Row) :
    ((counts_weather (df_clean df)).map Prod.snd).sum = (df_clean df).length ∧
    ((counts_road (df_clean df)).map Prod.snd).sum = (df_clean df).length ∧
    ((counts_light (df_clean df)).map Prod.snd).sum = (df_clean df).length ∧
    ((counts_junction (df_clean df)).map Prod.snd).sum = (df_clean df).length ∧
    ((counts_lanes (df_clean df)).map Prod.snd).sum = (df_clean df).length ∧
    ((counts_cause (df_clean df)).map Prod.snd).sum ≤ (df_clean df).length ∧
    ((colValues (df_clean df) Row.cause_of_accident).dedup.length ≤ 15 →
      ((counts_cause (df_clean df)).map Prod.snd).sum = (df_clean df).length) := by
  refine ⟨full_counts_sum df (by simp [cols_of_interest]),
    full_counts_sum df (by simp [cols_of_interest]),
    full_counts_sum df (by simp [cols_of_interest]),
    full_counts_sum df (by simp [cols_of_interest]),
    full_counts_sum df (by simp [cols_of_interest]), ?_, ?_⟩
  · calc ((counts_cause (df_clean df)).map Prod.snd).sum
        = (((value_counts (colValues (df_clean df) Row.cause_of_accident)).map
            Prod.snd).take 15).sum := by
          rw [counts_cause, List.map_take]
      _ ≤ ((value_counts (colValues (df_clean df) Row.cause_of_accident)).map
            Prod.snd).sum := sum_take_le _ _
      _ = (df_clean df).length := full_counts_sum df (by simp [cols_of_interest])
  · intro h
    have hlen : (value_counts (colValues (df_clean df) Row.cause_of_accident)).length ≤ 15 := by
      unfold value_counts
      simpa using h
    rw [counts_cause, List.take_of_length_le hlen]
    exact full_counts_sum df (by simp [cols_of_interest])

/-- C3 witness: on the concrete four-row table (one distinct cause) the
truncated causes table still sums to the number of cleaned rows. -/
theorem claim3_witness :
    ((counts_cause (df_clean exDfA)).map Prod.snd).sum = (df_clean exDfA).length :=
  (claim3_frequency_sums exDfA).2.2.2.2.2.2 (by decide)

/-- C4 counterexample: an input whose only row is null in a required column
cleans to zero rows; the run then dies at the line-104 stacked-bar plot —
the row-normalized severity-by-weather crosstab is a (0,0) frame with no
numeric columns, so pandas raises `TypeError: no numeric data to plot` —
before the chi-square loop and the `to_csv` calls are ever reached: no
header-only CSV is written, refuting the claim as stated. -/
theorem claim4_counterexample :
    df_clean [badRow] = [] ∧
    pipeline (fun _ _ => 0) [badRow] = .error "no numeric data to plot" :=
  ⟨rfl, rfl⟩

/-- C4 (amended): for every input whose cleaned table is empty, the run
crashes before CSV export: the stacked-bar plot of the empty normalized
severity-by-weather crosstab (line 104) raises pandas'
`TypeError: no numeric data to plot`, nothing catches it, and the run
never reaches the chi-square loop or the CSV export, so neither CSV file
is produced. -/
theorem claim4_empty_clean_aborts (sf : ℚ → ℤ → ℚ) (df : List Row)
    (h : df_clean df = []) :
    pipeline sf df = .error "no numeric data to plot" := by
  unfold pipeline
  rw [h]
  rfl

/-- C4 witness: the empty input cleans to the empty table and the pipeline
indeed aborts at the line-104 stacked-bar plot. -/
theorem claim4_witness :
    pipeline (fun _ _ => 0) ([] : List Row) = .error "no numeric data to plot" :=
  claim4_empty_clean_aborts _ [] rfl

/-- C9: the `pd.Categorical` category list for `Accident_severity`
(`sorted(df_clean['Accident_severity'].unique())`, lines 32-34) is the
ascending sorted duplicate-free list of exactly the severity values present
after cleaning, and every contingency table built against severity lays its
severity columns out in exactly that order. -/
theorem claim9_severity_categories (dfc : List Row) :
    List.Sorted (· ≤ ·) (severityCategories dfc) ∧
    (severityCategories dfc).Nodup ∧
    (∀ v, v ∈ severityCategories dfc ↔ v ∈ colValues dfc Row.accident_severity) ∧
    ∀ c, crosstab dfc c = (rowCategories dfc c).map fun rv =>
      (severityCategories dfc).map fun cv =>
        (dfc.filter fun row =>
          c row == some rv && row.accident_severity == some cv).length := by
  refine ⟨?_, ?_, ?_, fun c => rfl⟩
  · exact (List.sorted_insertionSort _ _).imp fun hab => (strLe_iff _ _).1 hab
  · exact ((List.perm_insertionSort _ _).nodup_iff).2 (List.nodup_dedup _)
  · intro v
    simp [severityCategories, sortedStrings]

/-- C10: cleaning is a pure row filter: the cleaned table is a subsequence
of the input rows in their original order (so every retained cell is the
unchanged input cell), and equals exactly `filter rowComplete`; the input
list itself is untouched, every embedded operation being pure. -/
theorem claim10_clean_is_filter (df : List Row) :
    (df_clean df).Sublist df ∧ df_clean df = df.filter rowComplete :=
  ⟨List.filter_sublist df, rfl⟩

/-- C5: whenever a chi-square test of the script succeeds, the degrees of
freedom it records equal (r−1)(c−1) for the r×c table shape it records. -/
theorem claim5_dof (sf : ℚ → ℤ → ℚ) (dfc : List Row) (c : Row → Option String)
    (res : Chi2Result) (h : run_chi2 sf dfc c = .ok res) :
    res.dof = ((res.table_shape.1 : ℤ) - 1) * ((res.table_shape.2 : ℤ) - 1) := by
  unfold run_chi2 chi2_contingency at h
  split at h
  · simp at h
  split at h
  · simp at h
  · rw [Except.ok.injEq] at h
    subst h
    unfold dofOf
    push_cast
    ring

/-- C5 witness: the concrete four-row table yields a successful 2×2 test
whose recorded dof is (2−1)(2−1). -/
theorem claim5_witness :
    (⟨0, 0, 1, (2, 2)⟩ : Chi2Result).dof =
      (((⟨0, 0, 1, (2, 2)⟩ : Chi2Result).table_shape.1 : ℤ) - 1) *
        (((⟨0, 0, 1, (2, 2)⟩ : Chi2Result).table_shape.2 : ℤ) - 1) :=
  claim5_dof (fun _ _ => 0) exDfA Row.weather_conditions _ (by
    have hcross : crosstab exDfA Row.weather_conditions = [[1, 1], [1, 1]] := by decide
    unfold run_chi2
    rw [hcross]
    norm_num [chi2_contingency, expectedTable, colTotals, grandTotal, ncols,
      chi2stat, cellStat, yatesAdjust, qsign, dofOf, Chi2Result.mk.injEq,
      List.zipWith_cons_cons, List.replicate, List.zip_cons_cons])

/-- C6: in the row-normalized severity-by-weather cross-tabulation
(line 101), a row with nonzero original sum normalizes to entries summing
exactly to 1 (a fortiori within floating tolerance), and a zero-sum row is
mapped to all zeros (`0/0 = NaN` filled by `fillna(0)`) instead of raising
a division error. -/
theorem claim6_row_normalization (dfc : List Row) (row : List ℕ)
    (_hrow : row ∈ pivot_w_s dfc) :
    (row.sum ≠ 0 → (normalizeRow row).sum = 1) ∧
    (row.sum = 0 → ∀ q ∈ normalizeRow row, q = 0) := by
  constructor
  · intro h
    have hs : ((row.sum : ℕ) : ℚ) ≠ 0 := by exact_mod_cast h
    have hmap : normalizeRow row = row.map fun o : ℕ => (o : ℚ) * ((row.sum : ℚ))⁻¹ := by
      unfold normalizeRow
      refine List.map_congr_left fun o _ => ?_
      rw [if_neg hs, div_eq_mul_inv]
    rw [hmap, List.sum_map_mul_right,
      show (row.map fun o : ℕ => (o : ℚ)).sum = ((row.sum : ℕ) : ℚ) from
        (Nat.cast_list_sum row).symm]
    exact mul_inv_cancel₀ hs
  · intro h q hq
    have hs : ((row.sum : ℕ) : ℚ) = 0 := by exact_mod_cast h
    unfold normalizeRow at hq
    obtain ⟨o, _, hoq⟩ := List.mem_map.1 hq
    rw [← hoq, if_pos hs]

/-- C6 witness: the row [1, 1] of the concrete pivot normalizes to entries
summing to 1. -/
theorem claim6_witness : (normalizeRow [1, 1]).sum = 1 :=
  (claim6_row_normalization exDfA [1, 1] (by decide)).1 (by decide)

/-- C7: on any contingency table of nonzero size with a zero expected cell
count, `chi2_contingency` fails with scipy's ValueError (an `Except.error`
here), and `run_chi2` is a bare pass-through with no guard or handler, so
the failure propagates out of the association tester. -/
theorem claim7_zero_expected_fails (sf : ℚ → ℤ → ℚ) (t : List (List ℕ))
    (hsize : ¬t.length * ncols t = 0)
    (hzero : ∃ er ∈ expectedTable t, ∃ e ∈ er, e = 0) :
    chi2_contingency sf t =
      .error "The internally computed table of expected frequencies has a zero element." ∧
    ∀ (dfc : List Row) (c : Row → Option String),
      run_chi2 sf dfc c = chi2_contingency sf (crosstab dfc c) := by
  refine ⟨?_, fun dfc c => rfl⟩
  have hb : ((expectedTable t).any fun er => er.any fun e => decide (e = 0)) = true := by
    simp only [List.any_eq_true, decide_eq_true_eq]
    exact hzero
  unfold chi2_contingency
  rw [if_neg hsize, if_pos hb]

/-- C7 witness: the 2×2 table [[1,0],[1,0]] has a zero second column, hence
zero expected cells, and the test errors on it. -/
theorem claim7_witness :
    chi2_contingency (fun _ _ => 0) [[1, 0], [1, 0]] =
      .error "The internally computed table of expected frequencies has a zero element." := by
  refine (claim7_zero_expected_fails (fun _ _ => 0) [[1, 0], [1, 0]] (by decide) ?_).1
  have hexp : expectedTable [[1, 0], [1, 0]] = [[1, 0], [1, 0]] := by
    norm_num [expectedTable, colTotals, grandTotal, ncols,
      List.zipWith_cons_cons, List.replicate]
  rw [hexp]
  exact ⟨[1, 0], by simp, 0, by simp, rfl⟩

/-- C8: determinism of the exported bytes: for a fixed input table (and the
fixed survival-function routine the statistics library uses for p-values),
any two runs of the pipeline produce the same pair of CSV byte strings. The
embedding threads the whole run from input to CSV text as a pure function:
no step consults a clock, randomness source, or anything outside the
input. -/
theorem claim8_deterministic (sf : ℚ → ℤ → ℚ) (df : List Row)
    (out₁ out₂ : Except String (String × String))
    (h₁ : pipeline sf df = out₁) (h₂ : pipeline sf df = out₂) : out₁ = out₂ :=
  h₁.symm.trans h₂

/-- C8 witness: two evaluations of the pipeline on the concrete four-row
input coincide. -/
theorem claim8_witness :
    pipeline (fun _ _ => 0) exDfA = pipeline (fun _ _ => 0) exDfA :=
  claim8_deterministic (fun _ _ => 0) exDfA _ _ rfl rfl

/-- C2 (amended): for a successful test on a rectangular contingency table,
the recorded statistic equals the spec's Pearson sum
Σ (observed − expected)² / expected whenever the degrees of freedom differ
from 1; when dof = 1 (2×2 tables) scipy's default `correction=True` applies
the Yates continuity correction, so the recorded statistic is the corrected
sum instead. -/
theorem claim2_statistic (sf : ℚ → ℤ → ℚ) (t : List (List ℕ)) (res : Chi2Result)
    (hrect : IsRect t) (h : chi2_contingency sf t = .ok res) :
    (res.dof ≠ 1 → res.chi2 = pearsonStat t) ∧
    (res.dof = 1 → res.chi2 = chi2stat true t) := by
  unfold chi2_contingency at h
  split at h
  · simp at h
  split at h
  · simp at h
  · rw [Except.ok.injEq] at h
    have hchi : res.chi2 = chi2stat (decide (dofOf t = 1)) t := by rw [← h]
    have hdof : res.dof = dofOf t := by rw [← h]
    constructor
    · intro hne
      rw [hchi, decide_eq_false (by rw [hdof] at hne; exact hne)]
      exact chi2stat_false_eq_pearson hrect
    · intro heq
      rw [hchi, decide_eq_true (by rw [hdof] at heq; exact heq)]

/-- C2 counterexample: the claim fails as stated. For the 2×2 table
[[1,2],[3,4]] every |observed − expected| is 1/5 < 1/2, so the
Yates-corrected statistic the code records is 0, while the claimed Pearson
sum is 5/63. -/
theorem claim2_counterexample :
    chi2_contingency (fun _ _ => 0) [[1, 2], [3, 4]] =
      .ok { chi2 := 0, p_value := 0, dof := 1, table_shape := (2, 2) } ∧
    pearsonStat [[1, 2], [3, 4]] = 5 / 63 := by
  constructor
  · norm_num [chi2_contingency, expectedTable, colTotals, grandTotal, ncols,
      chi2stat, cellStat, yatesAdjust, qsign, dofOf, Chi2Result.mk.injEq,
      List.zipWith_cons_cons, List.replicate, List.zip_cons_cons, min_def, abs]
  · norm_num [pearsonStat, specExpected, specRowTotal, specColTotal, grandTotal,
      ncols, Finset.sum_range_succ]

/-- C2 witness: the 2×3 table [[1,2,3],[3,4,5]] has dof 2 ≠ 1 and its
recorded statistic is exactly the Pearson sum (both equal 3/16). -/
theorem claim2_witness :
    (chi2_contingency (fun _ _ => 0) [[1, 2, 3], [3, 4, 5]]).map Chi2Result.chi2 =
      .ok (pearsonStat [[1, 2, 3], [3, 4, 5]]) := by
  have hok : chi2_contingency (fun _ _ => 0) [[1, 2, 3], [3, 4, 5]] =
      .ok { chi2 := 3 / 16, p_value := 0, dof := 2, table_shape := (2, 3) } := by
    norm_num [chi2_contingency, expectedTable, colTotals, grandTotal, ncols,
      chi2stat, cellStat, yatesAdjust, qsign, dofOf, Chi2Result.mk.injEq,
      List.zipWith_cons_cons, List.replicate, List.zip_cons_cons]
  have h := (claim2_statistic (fun _ _ => 0) _ _ (by decide) hok).1 (by decide)
  rw [hok]
  simpa [Except.map] using h

end Task4
